import Mathlib

/-
Verification of the API gateway's request admission and dispatch pipeline.

The definitions below are a shallow embedding of the TypeScript sources:
  services/api-gateway/src/middleware/circuit-breaker.ts  (circuit breaker)
  services/api-gateway/src/middleware/auth.ts             (jwtAuth, optionalAuth)
  the request-validator middleware and the gateway middleware stack
  (rate limiter, requestValidator, circuitBreaker, per-route auth, proxy).

JS numbers holding counters and timestamps are modelled as integers; the
failure-rate comparison is modelled over exact rationals, which agrees with
the floating-point comparison for the integer operands involved.
-/

namespace Gateway

/-- Circuit phases: the state field of the CircuitState interface in
circuit-breaker.ts. -/
inductive Phase
  | CLOSED
  | OPEN
  | HALF_OPEN
deriving DecidableEq

/-- CircuitState interface from circuit-breaker.ts. The failures counter is a
JS number, modelled as an integer so that the floor-at-zero behaviour of
recordSuccess is a property of the code rather than of the type. -/
structure CircuitState where
  failures : Int
  lastFailureTime : Int
  state : Phase
deriving DecidableEq

/-- Circuit-breaker section of the configuration in config.ts (the request
timeout value is not read by the breaker logic itself). -/
structure CircuitBreakerConfig where
  errorThresholdPercentage : Int
  resetTimeoutMs : Int
deriving DecidableEq

/-- Default configuration values from config.ts: error threshold 50,
reset timeout 60000 ms. -/
def defaultCircuitBreakerConfig : CircuitBreakerConfig := ⟨50, 60000⟩

/-- getOrCreateCircuit in circuit-breaker.ts initialises a missing entry with
failures 0, lastFailureTime 0, state CLOSED. -/
def initialCircuit : CircuitState := ⟨0, 0, Phase.CLOSED⟩

/-- Word characters matched by the regex word class in getServiceFromPath. -/
def isWordChar (c : Char) : Bool := c.isAlphanum || c = '_'

/-- getServiceFromPath from circuit-breaker.ts: the first run of word
characters after a leading /v1/ prefix, or none when the path does not
match; the regex requires that run to be non-empty. -/
def getServiceFromPath (path : String) : Option String :=
  match path.data with
  | '/' :: 'v' :: '1' :: '/' :: rest =>
      let service := rest.takeWhile isWordChar
      if service.isEmpty then none else some (String.mk service)
  | _ => none

/-- The condition under which recordFailure opens the circuit: the failure
rate, failures divided by the fixed denominator 10, reaches the configured
threshold percentage divided by 100. The division is exact rational
division; for the integer operands involved this agrees with the JS
floating-point comparison. -/
def tripCondition (cfg : CircuitBreakerConfig) (failures : Int) : Prop :=
  ((failures : ℚ) / 10) ≥ ((cfg.errorThresholdPercentage : ℚ) / 100)

/-- The trip condition is the integer comparison obtained by clearing the
two constant denominators. -/
theorem tripCondition_iff (cfg : CircuitBreakerConfig) (failures : Int) :
    tripCondition cfg failures ↔ 10 * failures ≥ cfg.errorThresholdPercentage := by
  unfold tripCondition
  rw [ge_iff_le, div_le_div_iff₀ (by norm_num) (by norm_num)]
  rw [show ((10 : ℚ) : ℚ) = ((10 : Int) : ℚ) by norm_num,
      show ((100 : ℚ) : ℚ) = ((100 : Int) : ℚ) by norm_num]
  rw [← Int.cast_mul, ← Int.cast_mul, Int.cast_le]
  omega

instance (cfg : CircuitBreakerConfig) (failures : Int) : Decidable (tripCondition cfg failures) :=
  decidable_of_iff _ (tripCondition_iff cfg failures).symm

/-- recordFailure from circuit-breaker.ts: increment the counter, stamp the
failure time, and open the circuit when the trip condition holds for the
incremented counter. -/
def recordFailure (cfg : CircuitBreakerConfig) (now : Int) (c : CircuitState) : CircuitState :=
  let failures := c.failures + 1
  if tripCondition cfg failures then
    { failures := failures, lastFailureTime := now, state := Phase.OPEN }
  else
    { failures := failures, lastFailureTime := now, state := c.state }

/-- recordSuccess from circuit-breaker.ts: close a HALF_OPEN circuit and reset
its counter; otherwise decrement the counter, floored at zero. -/
def recordSuccess (c : CircuitState) : CircuitState :=
  if c.state = Phase.HALF_OPEN then
    { failures := 0, lastFailureTime := c.lastFailureTime, state := Phase.CLOSED }
  else
    { failures := max 0 (c.failures - 1), lastFailureTime := c.lastFailureTime, state := c.state }

/-- Result of the admission gate of the circuitBreaker middleware: either the
request continues (with the possibly updated circuit), or a response is sent
immediately with the given status and envelope fields. -/
inductive AdmissionResult
  | Allowed (circuit : CircuitState)
  | Rejected (status : Nat) (error : String) (message : String)
deriving DecidableEq

/-- Admission gate of the circuitBreaker middleware: while OPEN, reject with
503 until resetTimeoutMs has elapsed since lastFailureTime, then move to
HALF_OPEN and let the triggering request through; any other phase lets the
request through with the circuit unchanged. -/
def admissionCheck (cfg : CircuitBreakerConfig) (now : Int) (c : CircuitState) : AdmissionResult :=
  if c.state = Phase.OPEN then
    if now - c.lastFailureTime < cfg.resetTimeoutMs then
      AdmissionResult.Rejected 503 ("Service Unavailable") ("Circuit breaker is OPEN")
    else
      AdmissionResult.Allowed
        { failures := c.failures, lastFailureTime := c.lastFailureTime, state := Phase.HALF_OPEN }
  else
    AdmissionResult.Allowed c

/-- Outcome hook that circuitBreaker installs on the response send path: a
status of at least 500 records a failure, anything else records a success. -/
def recordOutcome (cfg : CircuitBreakerConfig) (now : Int) (statusCode : Nat)
    (c : CircuitState) : CircuitState :=
  if 500 ≤ statusCode then recordFailure cfg now c else recordSuccess c

/-- One interaction with a single service's circuit: an admission check by the
middleware, or a response status observed by the outcome hook. -/
inductive CircuitEvent
  | gateCheck (now : Int)
  | outcome (now : Int) (statusCode : Nat)
deriving DecidableEq

/-- Effect of one event on the circuit; a rejected admission leaves the
circuit unchanged. -/
def stepCircuit (cfg : CircuitBreakerConfig) (c : CircuitState) : CircuitEvent → CircuitState
  | CircuitEvent.gateCheck now =>
      match admissionCheck cfg now c with
      | AdmissionResult.Allowed c2 => c2
      | AdmissionResult.Rejected _ _ _ => c
  | CircuitEvent.outcome now statusCode => recordOutcome cfg now statusCode c

/-- Circuit reached from a starting circuit by a sequence of events. -/
def runCircuit (cfg : CircuitBreakerConfig) (c : CircuitState) : List CircuitEvent → CircuitState
  | [] => c
  | e :: es => runCircuit cfg (stepCircuit cfg c e) es

/-- JWTPayload fields used by jwtAuth in auth.ts. String claims that may be
absent in a token are modelled as the empty string, which is falsy in the
JS checks exactly like an absent claim. -/
structure JWTPayload where
  sub : String
  email : String
  tenantId : String
  roles : List String
  exp : Int
deriving DecidableEq

/-- A token as the jsonwebtoken library sees it: a payload together with the
key it was signed with. -/
structure SignedToken where
  payload : JWTPayload
  signedWith : String
deriving DecidableEq

/-- Errors thrown by the verify call of the jsonwebtoken library that auth.ts
distinguishes: TokenExpiredError, its superclass JsonWebTokenError, and
anything else. -/
inductive JwtError
  | JsonWebTokenError
  | TokenExpiredError
  | otherError
deriving DecidableEq

/-- The instanceof JsonWebTokenError test: true for TokenExpiredError as well,
because in the jsonwebtoken library TokenExpiredError extends
JsonWebTokenError. -/
def instanceOfJsonWebTokenError : JwtError → Bool
  | JwtError.JsonWebTokenError => true
  | JwtError.TokenExpiredError => true
  | JwtError.otherError => false

/-- The instanceof TokenExpiredError test. -/
def instanceOfTokenExpiredError : JwtError → Bool
  | JwtError.TokenExpiredError => true
  | _ => false

/-- Result of jwt.verify: the decoded payload, or a thrown error. -/
inductive VerifyResult
  | ok (payload : JWTPayload)
  | threw (e : JwtError)
deriving DecidableEq

/-- Model of jwt.verify from the jsonwebtoken library: the signature is
checked first (JsonWebTokenError on mismatch), then expiry
(TokenExpiredError when the current time is at or past the exp claim). -/
def jwtVerify (secret : String) (now : Int) (t : SignedToken) : VerifyResult :=
  if t.signedWith ≠ secret then VerifyResult.threw JwtError.JsonWebTokenError
  else if t.payload.exp ≤ now then VerifyResult.threw JwtError.TokenExpiredError
  else VerifyResult.ok t.payload

/-- User context attached to the request on successful authentication
(req.user in auth.ts; the optional tier and permissions fields are part of
the same assignment and are omitted here). -/
structure UserContext where
  id : String
  email : String
  tenantId : String
  roles : List String
deriving DecidableEq

/-- Error envelope of rejection responses; the timestamp field is the current
time rendered as a string and is omitted. -/
structure ErrorBody where
  error : String
  message : String
deriving DecidableEq

/-- What an auth middleware does with a request: send a response itself, or
call next, optionally having attached a user context. -/
inductive AuthOutcome
  | respond (status : Nat) (body : ErrorBody)
  | proceed (user : Option UserContext)
deriving DecidableEq

/-- Verification and catch-block part of jwtAuth (auth.ts): decode the token,
check the required sub and tenantId claims, and build req.user; on a thrown
error the instanceof JsonWebTokenError branch is checked before the
instanceof TokenExpiredError branch, exactly as in the source. -/
def jwtAuthVerify (verify : String → VerifyResult) (token : String) : AuthOutcome :=
  match verify token with
  | VerifyResult.ok decoded =>
      if decoded.sub = "" ∨ decoded.tenantId = "" then
        AuthOutcome.respond 401 ⟨"Unauthorized", "Invalid token payload"⟩
      else
        AuthOutcome.proceed (some
          { id := decoded.sub
            email := if decoded.email = "" then "unknown@udsp.io" else decoded.email
            tenantId := decoded.tenantId
            roles := decoded.roles })
  | VerifyResult.threw e =>
      if instanceOfJsonWebTokenError e then
        AuthOutcome.respond 401 ⟨"Unauthorized", "Invalid token"⟩
      else if instanceOfTokenExpiredError e then
        AuthOutcome.respond 401 ⟨"Unauthorized", "Token expired"⟩
      else
        AuthOutcome.respond 500 ⟨"Internal Server Error", "Authentication service error"⟩

/-- jwtAuth from auth.ts, with the jsonwebtoken verify call on the raw token
string (under the configured secret and current time) abstracted as verify.
A header starting with the Bearer scheme keeps the substring after the 7
scheme characters, one starting with the Service scheme the substring after
its 8 characters; any other header form is rejected as invalid. -/
def jwtAuth (verify : String → VerifyResult) (authHeader : Option String) : AuthOutcome :=
  match authHeader with
  | none => AuthOutcome.respond 401 ⟨"Unauthorized", "Authorization header is required"⟩
  | some h =>
      match h.data with
      | 'B' :: 'e' :: 'a' :: 'r' :: 'e' :: 'r' :: ' ' :: token =>
          jwtAuthVerify verify (String.mk token)
      | 'S' :: 'e' :: 'r' :: 'v' :: 'i' :: 'c' :: 'e' :: ' ' :: token =>
          jwtAuthVerify verify (String.mk token)
      | _ => AuthOutcome.respond 401 ⟨"Unauthorized", "Invalid authorization header format"⟩

/-- optionalAuth from auth.ts: with no header it calls next with no identity;
with a header it awaits jwtAuth. jwtAuth handles every failure by sending a
response itself and never throws, so the surrounding try-catch never fires
and the jwtAuth result stands. -/
def optionalAuth (verify : String → VerifyResult) (authHeader : Option String) : AuthOutcome :=
  match authHeader with
  | none => AuthOutcome.proceed none
  | some h => jwtAuth verify (some h)

/-- Header-list lookup; express presents request header names lowercased. -/
def lookupHeader (hs : List (String × String)) (name : String) : Option String :=
  match hs.find? (fun p => p.fst == name) with
  | some p => some p.snd
  | none => none

/-- Setting a header: the new binding shadows any previous one for the name. -/
def setHeader (hs : List (String × String)) (name value : String) : List (String × String) :=
  (name, value) :: hs.filter (fun p => p.fst != name)

/-- Request id generated by requestValidator and by onProxyReq when the
header is absent, from the current Unix milliseconds and a random suffix. -/
def genRequestId (nowMs : Int) (randomSuffix : String) : String :=
  "req_" ++ toString nowMs ++ "_" ++ randomSuffix

/-- Request id chosen by requestValidator and onProxyReq: the inbound
x-request-id header value when present and non-empty (the empty string is
falsy in JS), otherwise a freshly generated one. -/
def resolveRequestId (hs : List (String × String)) (nowMs : Int) (randomSuffix : String) : String :=
  match lookupHeader hs ("x-request-id") with
  | some v => if v = "" then genRequestId nowMs randomSuffix else v
  | none => genRequestId nowMs randomSuffix

/-- An inbound request as the middleware stack sees it: the path and the
request headers, header names lowercased by the HTTP layer. -/
structure GatewayRequest where
  path : String
  headers : List (String × String)
deriving DecidableEq

/-- Result of running one request through the middleware stack: the response
status, the rejection envelope when the gateway itself answered, the
response headers set by the gateway, the headers of the forwarded
downstream request when one was sent, and the target service's circuit
afterwards. -/
structure GatewayResult where
  status : Nat
  body : Option ErrorBody
  resHeaders : List (String × String)
  forwarded : Option (List (String × String))
  circuit : CircuitState
deriving DecidableEq

/-- Service routes registered by the gateway's route initialisation. -/
def serviceRoutes : List String := ["auth", "identities", "credentials", "blockchain", "compliance"]

/-- Auth middleware attached to a service proxy by the gateway's route
initialisation: optionalAuth on the auth route, jwtAuth on every other one. -/
def authMiddlewareFor (service : String) :
    (String → VerifyResult) → Option String → AuthOutcome :=
  if service = "auth" then optionalAuth else jwtAuth

/-- onProxyReq from setupServiceProxy: re-read the request id from the request
headers (regenerating it if absent, which cannot happen after
requestValidator ran), set X-Request-ID on the proxied request, and forward
the user identity headers when a user context is present. -/
def proxyRequestHeaders (reqHeaders : List (String × String)) (proxyNowMs : Int)
    (proxySuffix : String) (user : Option UserContext) : List (String × String) :=
  let requestId := resolveRequestId reqHeaders proxyNowMs proxySuffix
  let base := setHeader reqHeaders ("X-Request-ID") requestId
  match user with
  | some u => setHeader (setHeader base ("X-User-ID") u.id) ("X-Tenant-ID") u.tenantId
  | none => base

/-- Path a middleware mounted with app.use at /v1 receives: Express strips
the mount prefix from req.path, so the circuitBreaker middleware sees only
the remainder (a bare /v1, or /v1 followed directly by a slash and nothing
else, is seen as the root path); none means the mount does not match and
the middleware is not invoked at all. Modelled from Express's documented
mounting behaviour. -/
def v1MountPath (path : String) : Option String :=
  match path.data with
  | '/' :: 'v' :: '1' :: [] => some ("/")
  | '/' :: 'v' :: '1' :: '/' :: rest => some (String.mk ('/' :: rest))
  | _ => none

/-- Outcome of the routing stage: the response status, the gateway's own
error envelope when it answered itself, and the forwarded request headers
when a downstream request was sent. -/
structure DispatchResult where
  status : Nat
  body : Option ErrorBody
  forwarded : Option (List (String × String))
deriving DecidableEq

/-- Routing, per-route auth and proxy forwarding: the service proxies are
registered against the full /v1 service paths, so they match on the
original request path; a matched route runs its auth middleware and, on
proceed, forwards with the onProxyReq headers; an unmatched path falls to
the 404 handler. The auth header is read from the request headers, which
requestValidator only touches at the x-request-id key; the proxied request
is built from the mutated headers. -/
def routeStage (verify : String → VerifyResult) (proxyNowMs : Int) (proxySuffix : String)
    (downstreamStatus : Nat) (req : GatewayRequest)
    (reqHeaders : List (String × String)) : DispatchResult :=
  match getServiceFromPath req.path with
  | some service =>
      if service ∈ serviceRoutes then
        match authMiddlewareFor service verify (lookupHeader req.headers ("authorization")) with
        | AuthOutcome.respond s b => ⟨s, some b, none⟩
        | AuthOutcome.proceed user =>
            ⟨downstreamStatus, none,
              some (proxyRequestHeaders reqHeaders proxyNowMs proxySuffix user)⟩
      else ⟨404, some ⟨"Not Found", "Route " ++ req.path ++ " not found"⟩, none⟩
  | none => ⟨404, some ⟨"Not Found", "Route " ++ req.path ++ " not found"⟩, none⟩

/-- One request through the gateway middleware stack, in the source's
installation order: the global rate limiter (express-rate-limit with the
message configured in the gateway, modelled by the overLimit flag), then
requestValidator, then the circuitBreaker middleware mounted at /v1, then
routing with per-route auth and the proxy. Because Express strips the /v1
mount prefix, the circuitBreaker's path regex — which itself requires a
leading /v1/ — only matches when the remainder starts with a second /v1/
segment; for ordinary /v1 service paths it does not match, so the
middleware takes its early-return branch and neither the admission gate
nor the response outcome hook engages, and the circuit is untouched. The
circuit argument is the state for the service the breaker would name. -/
def gatewayProcess (cfg : CircuitBreakerConfig) (verify : String → VerifyResult)
    (overLimit : Bool) (nowMs : Int) (randomSuffix : String) (proxyNowMs : Int)
    (proxySuffix : String) (responseMs : Int) (downstreamStatus : Nat)
    (req : GatewayRequest) (c : CircuitState) : GatewayResult :=
  if overLimit then
    { status := 429, body := some ⟨"Too many requests", "Rate limit exceeded"⟩,
      resHeaders := [], forwarded := none, circuit := c }
  else
    let requestId := resolveRequestId req.headers nowMs randomSuffix
    let reqHeaders := setHeader req.headers ("x-request-id") requestId
    let resHeaders := [(("X-Request-ID" : String), requestId)]
    match v1MountPath req.path with
    | none =>
        let r := routeStage verify proxyNowMs proxySuffix downstreamStatus req reqHeaders
        { status := r.status, body := r.body, resHeaders := resHeaders,
          forwarded := r.forwarded, circuit := c }
    | some strippedPath =>
        match getServiceFromPath strippedPath with
        | none =>
            let r := routeStage verify proxyNowMs proxySuffix downstreamStatus req reqHeaders
            { status := r.status, body := r.body, resHeaders := resHeaders,
              forwarded := r.forwarded, circuit := c }
        | some _ =>
            match admissionCheck cfg nowMs c with
            | AdmissionResult.Rejected s e m =>
                { status := s, body := some ⟨e, m⟩, resHeaders := resHeaders,
                  forwarded := none, circuit := c }
            | AdmissionResult.Allowed c1 =>
                let r := routeStage verify proxyNowMs proxySuffix downstreamStatus req reqHeaders
                { status := r.status, body := r.body, resHeaders := resHeaders,
                  forwarded := r.forwarded,
                  circuit := recordOutcome cfg responseMs r.status c1 }

/-- X-Request-ID header of the forwarded downstream request, when one was sent. -/
def forwardedRequestId (g : GatewayResult) : Option String :=
  match g.forwarded with
  | some hs => lookupHeader hs ("X-Request-ID")
  | none => none

/-- A verification oracle under which every token is rejected as an
unclassified error; used where the token content is irrelevant. -/
def nullVerify : String → VerifyResult := fun _ => VerifyResult.threw JwtError.otherError

/-- An expired token payload: both required claims present, exp at 500. -/
def expiredTokenPayload : JWTPayload := ⟨"user-1", "user@udsp.io", "tenant-1", [], 500⟩

/-- An expired token signed with the configured secret. -/
def expiredToken : SignedToken := ⟨expiredTokenPayload, "secret-1"⟩

/-- Oracle mapping one known token string to the verify result of the
expired token at time 1000 under the matching secret. -/
def c3Verify : String → VerifyResult :=
  fun s => if s = "expired-token" then jwtVerify ("secret-1") 1000 expiredToken
           else VerifyResult.threw JwtError.otherError

/-- Oracle under which every token fails signature or format verification. -/
def c4Verify : String → VerifyResult := fun _ => VerifyResult.threw JwtError.JsonWebTokenError

/-- Oracle under which every token decodes to a fixed valid payload. -/
def okVerify : String → VerifyResult :=
  fun _ => VerifyResult.ok ⟨"user-1", "user@udsp.io", "tenant-1", [], 99999⟩

/-- Looking up the header name just set returns the new value. -/
theorem lookupHeader_setHeader_self (hs : List (String × String)) (n v : String) :
    lookupHeader (setHeader hs n v) n = some v := by
  simp [lookupHeader, setHeader, List.find?]

/-- Looking up in a singleton header list. -/
theorem lookupHeader_single (n v : String) : lookupHeader [(n, v)] n = some v := by
  simp [lookupHeader, List.find?]

/-- Filtering out the bindings of one name does not change the first match of
a different name. -/
theorem find?_filter_ne (t : List (String × String)) (n m : String) (h : m ≠ n) :
    (t.filter (fun p => p.fst != n)).find? (fun p => p.fst == m)
      = t.find? (fun p => p.fst == m) := by
  induction t with
  | nil => rfl
  | cons a t ih =>
    by_cases ha : a.fst = n
    · have h1 : (a.fst != n) = false := by simp [ha]
      have h2 : (a.fst == m) = false := by
        rw [ha]
        exact beq_eq_false_iff_ne.mpr fun hh => h hh.symm
      simp [List.filter_cons, h1, List.find?, h2, ih]
    · have h1 : (a.fst != n) = true := by simp [ha]
      by_cases ham : a.fst = m
      · have h2 : (a.fst == m) = true := beq_iff_eq.mpr ham
        simp [List.filter_cons, h1, List.find?, h2]
      · have h2 : (a.fst == m) = false := beq_eq_false_iff_ne.mpr ham
        simp [List.filter_cons, h1, List.find?, h2, ih]

/-- Setting one header leaves lookups of other names unchanged. -/
theorem lookupHeader_setHeader_ne (hs : List (String × String)) (n v m : String) (h : m ≠ n) :
    lookupHeader (setHeader hs n v) m = lookupHeader hs m := by
  have h2 : ((n, v).fst == m) = false := beq_eq_false_iff_ne.mpr fun hh => h hh.symm
  simp [lookupHeader, setHeader, List.find?, h2, find?_filter_ne hs n m h]

/-- A generated request id is never the empty string. -/
theorem genRequestId_ne_empty (nowMs : Int) (s : String) : genRequestId nowMs s ≠ "" := by
  unfold genRequestId
  intro hcontra
  have h2 : ("req_" ++ toString nowMs ++ "_" ++ s).data = ("" : String).data := by
    rw [hcontra]
  simp [String.append, String.data] at h2

/-- The resolved request id is never the empty string. -/
theorem resolveRequestId_ne_empty (hs : List (String × String)) (nowMs : Int) (s : String) :
    resolveRequestId hs nowMs s ≠ "" := by
  unfold resolveRequestId
  cases hv : lookupHeader hs ("x-request-id") with
  | none => exact genRequestId_ne_empty _ _
  | some v =>
      by_cases hv0 : v = ""
      · simpa [hv0] using genRequestId_ne_empty nowMs s
      · simp [hv0]

/-- onProxyReq re-reads the id that requestValidator stored on the request
headers, so the forwarded request carries that same id. -/
theorem proxyRequestHeaders_requestId (hs : List (String × String)) (rid : String)
    (pNow : Int) (pRnd : String) (user : Option UserContext) (hrid : rid ≠ "") :
    lookupHeader (proxyRequestHeaders (setHeader hs ("x-request-id") rid) pNow pRnd user)
        ("X-Request-ID") = some rid := by
  have h1 : resolveRequestId (setHeader hs ("x-request-id") rid) pNow pRnd = rid := by
    unfold resolveRequestId
    rw [lookupHeader_setHeader_self]
    simp [hrid]
  unfold proxyRequestHeaders
  rw [h1]
  cases user with
  | none => exact lookupHeader_setHeader_self _ _ _
  | some u =>
      rw [lookupHeader_setHeader_ne _ _ _ _ (by decide),
          lookupHeader_setHeader_ne _ _ _ _ (by decide)]
      exact lookupHeader_setHeader_self _ _ _

/-- C1, counterexample. After five recorded failures the circuit is OPEN at
time 1000; the admission check at 70000 is the probe that moves it to
HALF_OPEN. The claim says that while the circuit remains HALF_OPEN with no
outcome recorded, every further admission check is Rejected; instead the
very next check at 70001 is Allowed (the only rejection the middleware can
produce is the 503 envelope, and the result is not that). -/
theorem c1_single_probe_counterexample :
    runCircuit defaultCircuitBreakerConfig initialCircuit
      [CircuitEvent.outcome 1000 500, CircuitEvent.outcome 1000 500, CircuitEvent.outcome 1000 500,
       CircuitEvent.outcome 1000 500, CircuitEvent.outcome 1000 500, CircuitEvent.gateCheck 70000]
      = ⟨5, 1000, Phase.HALF_OPEN⟩
  ∧ admissionCheck defaultCircuitBreakerConfig 70001 ⟨5, 1000, Phase.HALF_OPEN⟩
      = AdmissionResult.Allowed ⟨5, 1000, Phase.HALF_OPEN⟩
  ∧ admissionCheck defaultCircuitBreakerConfig 70001 ⟨5, 1000, Phase.HALF_OPEN⟩
      ≠ AdmissionResult.Rejected 503 ("Service Unavailable") ("Circuit breaker is OPEN") := by
  decide

/-- C1, amended. For an OPEN circuit whose reset timeout has elapsed, the next
admission check returns Allowed and transitions the circuit to HALF_OPEN;
however Allowed is not returned exactly once: while the circuit is
HALF_OPEN, every admission check returns Allowed (the middleware does not
restrict HALF_OPEN to a single probe). -/
theorem c1_half_open_admissions (cfg : CircuitBreakerConfig) (now : Int) (c : CircuitState) :
    (c.state = Phase.OPEN → cfg.resetTimeoutMs ≤ now - c.lastFailureTime →
      admissionCheck cfg now c
        = AdmissionResult.Allowed ⟨c.failures, c.lastFailureTime, Phase.HALF_OPEN⟩)
  ∧ (c.state = Phase.HALF_OPEN → admissionCheck cfg now c = AdmissionResult.Allowed c) := by
  constructor
  · intro hOpen hTime
    simp [admissionCheck, hOpen, not_lt.mpr hTime]
  · intro hHalf
    simp [admissionCheck, hHalf]

/-- C1, witness for the amended theorem at the default configuration. -/
theorem c1_half_open_admissions_witness :
    admissionCheck defaultCircuitBreakerConfig 61000 ⟨5, 1000, Phase.OPEN⟩
      = AdmissionResult.Allowed ⟨5, 1000, Phase.HALF_OPEN⟩
  ∧ admissionCheck defaultCircuitBreakerConfig 61001 ⟨5, 1000, Phase.HALF_OPEN⟩
      = AdmissionResult.Allowed ⟨5, 1000, Phase.HALF_OPEN⟩ :=
  ⟨(c1_half_open_admissions defaultCircuitBreakerConfig 61000 ⟨5, 1000, Phase.OPEN⟩).1
      rfl (by decide),
   (c1_half_open_admissions defaultCircuitBreakerConfig 61001 ⟨5, 1000, Phase.HALF_OPEN⟩).2 rfl⟩

/-- C5, counterexample. With the default reset timeout of 60000 ms, an OPEN
circuit checked exactly 60000 ms after the last failure has not yet
exceeded the timeout; the claim says such a request is rejected with 503,
but the code admits it and transitions to HALF_OPEN because its comparison
is strict. -/
theorem c5_reset_boundary_counterexample :
    admissionCheck defaultCircuitBreakerConfig 61000 ⟨5, 1000, Phase.OPEN⟩
      = AdmissionResult.Allowed ⟨5, 1000, Phase.HALF_OPEN⟩
  ∧ (61000 : Int) - 1000 = defaultCircuitBreakerConfig.resetTimeoutMs := by
  decide

/-- C5, amended. When the circuit-breaker admission gate evaluates a circuit
in OPEN phase: if strictly less than the reset timeout has elapsed since
lastFailureTime, the gate answers immediately with status 503 and the
envelope fields error Service Unavailable and message Circuit breaker is
OPEN — the request is not passed to the remaining stages and the circuit is
unchanged; if at least the reset timeout has elapsed, the circuit
transitions to HALF_OPEN and that request is admitted. (In the deployed
stack the /v1 mount strips the prefix the gate's regex needs, so the gate
never engages on ordinary service paths; this is the gate's own contract.) -/
theorem c5_open_gate_behaviour (cfg : CircuitBreakerConfig) (now : Int) (c : CircuitState)
    (hOpen : c.state = Phase.OPEN) :
    (now - c.lastFailureTime < cfg.resetTimeoutMs →
      admissionCheck cfg now c
        = AdmissionResult.Rejected 503 ("Service Unavailable") ("Circuit breaker is OPEN")
      ∧ stepCircuit cfg c (CircuitEvent.gateCheck now) = c)
  ∧ (cfg.resetTimeoutMs ≤ now - c.lastFailureTime →
      admissionCheck cfg now c
        = AdmissionResult.Allowed ⟨c.failures, c.lastFailureTime, Phase.HALF_OPEN⟩) := by
  constructor
  · intro hlt
    have hadm : admissionCheck cfg now c
        = AdmissionResult.Rejected 503 ("Service Unavailable") ("Circuit breaker is OPEN") := by
      simp [admissionCheck, hOpen, hlt]
    exact ⟨hadm, by simp [stepCircuit, hadm]⟩
  · intro hge
    simp [admissionCheck, hOpen, not_lt.mpr hge]

/-- C5, witness for the amended theorem: the gate on an OPEN circuit before
the timeout, and the admission at the timeout boundary. -/
theorem c5_open_gate_behaviour_witness :
    (admissionCheck defaultCircuitBreakerConfig 2000 ⟨5, 1000, Phase.OPEN⟩
        = AdmissionResult.Rejected 503 ("Service Unavailable") ("Circuit breaker is OPEN")
      ∧ stepCircuit defaultCircuitBreakerConfig ⟨5, 1000, Phase.OPEN⟩
          (CircuitEvent.gateCheck 2000) = ⟨5, 1000, Phase.OPEN⟩)
  ∧ admissionCheck defaultCircuitBreakerConfig 61000 ⟨5, 1000, Phase.OPEN⟩
      = AdmissionResult.Allowed ⟨5, 1000, Phase.HALF_OPEN⟩ :=
  ⟨(c5_open_gate_behaviour defaultCircuitBreakerConfig 2000 ⟨5, 1000, Phase.OPEN⟩ rfl).1
      (by decide),
   (c5_open_gate_behaviour defaultCircuitBreakerConfig 61000 ⟨5, 1000, Phase.OPEN⟩ rfl).2
      (by decide)⟩

/-- C6. Recording a failure on a CLOSED circuit opens it exactly when the
incremented counter over the fixed denominator 10 reaches the threshold
percentage over 100; below the threshold the circuit stays CLOSED; and
every admission check while CLOSED admits the request unchanged. -/
theorem c6_closed_trip_threshold (cfg : CircuitBreakerConfig) (now : Int) (c : CircuitState)
    (hClosed : c.state = Phase.CLOSED) :
    ((recordFailure cfg now c).state = Phase.OPEN ↔ tripCondition cfg (c.failures + 1))
  ∧ (¬ tripCondition cfg (c.failures + 1) → (recordFailure cfg now c).state = Phase.CLOSED)
  ∧ admissionCheck cfg now c = AdmissionResult.Allowed c := by
  refine ⟨?_, ?_, ?_⟩
  · by_cases htrip : tripCondition cfg (c.failures + 1) <;>
      simp [recordFailure, htrip, hClosed]
  · intro htrip
    simp [recordFailure, htrip, hClosed]
  · simp [admissionCheck, hClosed]

/-- C6, witness: with the default 50 percent threshold a fifth failure opens
the circuit, and the CLOSED circuit admits requests. -/
theorem c6_closed_trip_threshold_witness :
    ((recordFailure defaultCircuitBreakerConfig 1000 ⟨4, 0, Phase.CLOSED⟩).state = Phase.OPEN
      ↔ tripCondition defaultCircuitBreakerConfig 5)
  ∧ (¬ tripCondition defaultCircuitBreakerConfig 5 →
      (recordFailure defaultCircuitBreakerConfig 1000 ⟨4, 0, Phase.CLOSED⟩).state = Phase.CLOSED)
  ∧ admissionCheck defaultCircuitBreakerConfig 1000 ⟨4, 0, Phase.CLOSED⟩
      = AdmissionResult.Allowed ⟨4, 0, Phase.CLOSED⟩ :=
  c6_closed_trip_threshold defaultCircuitBreakerConfig 1000 ⟨4, 0, Phase.CLOSED⟩ rfl

/-- C7, counterexample. A reachable HALF_OPEN circuit for which recording a
failure does not return the circuit to OPEN: five failures open the circuit
at counter 5, two successes recorded while OPEN (responses of requests
admitted before the circuit opened) decay the counter to 3, the admission
check after the timeout moves it to HALF_OPEN, and the probe failure
raises the counter to 4 — below the 50 percent threshold — so the circuit
stays HALF_OPEN although the claim says it returns to OPEN. -/
theorem c7_half_open_failure_counterexample :
    runCircuit defaultCircuitBreakerConfig initialCircuit
      [CircuitEvent.outcome 1000 500, CircuitEvent.outcome 1000 500, CircuitEvent.outcome 1000 500,
       CircuitEvent.outcome 1000 500, CircuitEvent.outcome 1000 500,
       CircuitEvent.outcome 2000 200, CircuitEvent.outcome 2000 200,
       CircuitEvent.gateCheck 70000] = ⟨3, 1000, Phase.HALF_OPEN⟩
  ∧ recordFailure defaultCircuitBreakerConfig 80000 ⟨3, 1000, Phase.HALF_OPEN⟩
      = ⟨4, 80000, Phase.HALF_OPEN⟩
  ∧ (⟨4, 80000, Phase.HALF_OPEN⟩ : CircuitState).state ≠ Phase.OPEN := by
  decide

/-- C7, amended. For a HALF_OPEN circuit: recording a success transitions it
to CLOSED with the counter reset to zero; recording a failure increments
the counter and updates lastFailureTime to the current time, and returns
the circuit to OPEN exactly when the incremented counter meets the
threshold ratio — otherwise the circuit remains HALF_OPEN. -/
theorem c7_half_open_transitions (cfg : CircuitBreakerConfig) (now : Int) (c : CircuitState)
    (hHalf : c.state = Phase.HALF_OPEN) :
    recordSuccess c = ⟨0, c.lastFailureTime, Phase.CLOSED⟩
  ∧ (recordFailure cfg now c).lastFailureTime = now
  ∧ (recordFailure cfg now c).failures = c.failures + 1
  ∧ ((recordFailure cfg now c).state = Phase.OPEN ↔ tripCondition cfg (c.failures + 1))
  ∧ (¬ tripCondition cfg (c.failures + 1) → (recordFailure cfg now c).state = Phase.HALF_OPEN) := by
  refine ⟨by simp [recordSuccess, hHalf], ?_, ?_, ?_, ?_⟩
  · by_cases htrip : tripCondition cfg (c.failures + 1) <;> simp [recordFailure, htrip]
  · by_cases htrip : tripCondition cfg (c.failures + 1) <;> simp [recordFailure, htrip]
  · by_cases htrip : tripCondition cfg (c.failures + 1) <;> simp [recordFailure, htrip, hHalf]
  · intro htrip
    simp [recordFailure, htrip, hHalf]

/-- C7, witness for the amended theorem at a HALF_OPEN circuit with counter 5
under the default configuration. -/
theorem c7_half_open_transitions_witness :
    recordSuccess ⟨5, 1000, Phase.HALF_OPEN⟩ = ⟨0, 1000, Phase.CLOSED⟩
  ∧ (recordFailure defaultCircuitBreakerConfig 2000 ⟨5, 1000, Phase.HALF_OPEN⟩).lastFailureTime = 2000
  ∧ (recordFailure defaultCircuitBreakerConfig 2000 ⟨5, 1000, Phase.HALF_OPEN⟩).failures = 6
  ∧ ((recordFailure defaultCircuitBreakerConfig 2000 ⟨5, 1000, Phase.HALF_OPEN⟩).state = Phase.OPEN
      ↔ tripCondition defaultCircuitBreakerConfig 6)
  ∧ (¬ tripCondition defaultCircuitBreakerConfig 6 →
      (recordFailure defaultCircuitBreakerConfig 2000 ⟨5, 1000, Phase.HALF_OPEN⟩).state
        = Phase.HALF_OPEN) :=
  c7_half_open_transitions defaultCircuitBreakerConfig 2000 ⟨5, 1000, Phase.HALF_OPEN⟩ rfl

/-- C8. On a CLOSED circuit, recording a success sets the counter to
max 0 (failures - 1); and every operation — success, failure, the combined
outcome hook at any status, and the admission check — preserves a
non-negative counter. -/
theorem c8_success_floor_invariant (cfg : CircuitBreakerConfig) (now : Int) (statusCode : Nat)
    (c : CircuitState) (hNonneg : 0 ≤ c.failures) :
    (c.state = Phase.CLOSED →
      recordSuccess c = ⟨max 0 (c.failures - 1), c.lastFailureTime, Phase.CLOSED⟩)
  ∧ 0 ≤ (recordSuccess c).failures
  ∧ 0 ≤ (recordFailure cfg now c).failures
  ∧ 0 ≤ (recordOutcome cfg now statusCode c).failures
  ∧ 0 ≤ (stepCircuit cfg c (CircuitEvent.gateCheck now)).failures := by
  have hsucc : 0 ≤ (recordSuccess c).failures := by
    unfold recordSuccess
    split
    · simp
    · simp
  have hfail : 0 ≤ (recordFailure cfg now c).failures := by
    by_cases htrip : tripCondition cfg (c.failures + 1) <;>
      simp [recordFailure, htrip] <;> omega
  have hout : 0 ≤ (recordOutcome cfg now statusCode c).failures := by
    unfold recordOutcome
    split
    · exact hfail
    · exact hsucc
  have hstep : 0 ≤ (stepCircuit cfg c (CircuitEvent.gateCheck now)).failures := by
    simp only [stepCircuit]
    by_cases hOpen : c.state = Phase.OPEN
    · by_cases hlt : now - c.lastFailureTime < cfg.resetTimeoutMs
      · simp [admissionCheck, hOpen, hlt, hNonneg]
      · simp [admissionCheck, hOpen, hlt, hNonneg]
    · simp [admissionCheck, hOpen, hNonneg]
  exact ⟨fun hClosed => by simp [recordSuccess, hClosed], hsucc, hfail, hout, hstep⟩

/-- C8, witness at a CLOSED circuit with counter 2. -/
theorem c8_success_floor_invariant_witness :
    ((⟨2, 0, Phase.CLOSED⟩ : CircuitState).state = Phase.CLOSED →
      recordSuccess ⟨2, 0, Phase.CLOSED⟩ = ⟨max 0 ((2 : Int) - 1), 0, Phase.CLOSED⟩)
  ∧ 0 ≤ (recordSuccess ⟨2, 0, Phase.CLOSED⟩).failures
  ∧ 0 ≤ (recordFailure defaultCircuitBreakerConfig 1000 ⟨2, 0, Phase.CLOSED⟩).failures
  ∧ 0 ≤ (recordOutcome defaultCircuitBreakerConfig 1000 200 ⟨2, 0, Phase.CLOSED⟩).failures
  ∧ 0 ≤ (stepCircuit defaultCircuitBreakerConfig ⟨2, 0, Phase.CLOSED⟩
        (CircuitEvent.gateCheck 1000)).failures :=
  c8_success_floor_invariant defaultCircuitBreakerConfig 1000 200 ⟨2, 0, Phase.CLOSED⟩ (by decide)

/-- C10. For an OPEN circuit, recording an outcome never changes the phase:
a success only decrements the counter (floored at zero) and leaves the
circuit OPEN, a failure leaves it OPEN; the admission check rejects with
the 503 envelope while the reset timeout has not elapsed, and the only exit
from OPEN is the admission-check transition to HALF_OPEN once it has. -/
theorem c10_open_outcome_stability (cfg : CircuitBreakerConfig) (now : Int) (c : CircuitState)
    (hOpen : c.state = Phase.OPEN) :
    recordSuccess c = ⟨max 0 (c.failures - 1), c.lastFailureTime, Phase.OPEN⟩
  ∧ (recordFailure cfg now c).state = Phase.OPEN
  ∧ (now - c.lastFailureTime < cfg.resetTimeoutMs →
      admissionCheck cfg now c
        = AdmissionResult.Rejected 503 ("Service Unavailable") ("Circuit breaker is OPEN"))
  ∧ (cfg.resetTimeoutMs ≤ now - c.lastFailureTime →
      admissionCheck cfg now c
        = AdmissionResult.Allowed ⟨c.failures, c.lastFailureTime, Phase.HALF_OPEN⟩) := by
  refine ⟨by simp [recordSuccess, hOpen], ?_, ?_, ?_⟩
  · by_cases htrip : tripCondition cfg (c.failures + 1) <;> simp [recordFailure, htrip, hOpen]
  · intro hlt
    simp [admissionCheck, hOpen, hlt]
  · intro hge
    simp [admissionCheck, hOpen, not_lt.mpr hge]

/-- C10, witness at an OPEN circuit under the default configuration, before
and at the reset timeout. -/
theorem c10_open_outcome_stability_witness :
    (recordSuccess ⟨5, 1000, Phase.OPEN⟩ = ⟨max 0 ((5 : Int) - 1), 1000, Phase.OPEN⟩
      ∧ (recordFailure defaultCircuitBreakerConfig 2000 ⟨5, 1000, Phase.OPEN⟩).state = Phase.OPEN
      ∧ admissionCheck defaultCircuitBreakerConfig 2000 ⟨5, 1000, Phase.OPEN⟩
          = AdmissionResult.Rejected 503 ("Service Unavailable") ("Circuit breaker is OPEN"))
  ∧ admissionCheck defaultCircuitBreakerConfig 61000 ⟨5, 1000, Phase.OPEN⟩
      = AdmissionResult.Allowed ⟨5, 1000, Phase.HALF_OPEN⟩ :=
  ⟨⟨(c10_open_outcome_stability defaultCircuitBreakerConfig 2000 ⟨5, 1000, Phase.OPEN⟩ rfl).1,
    (c10_open_outcome_stability defaultCircuitBreakerConfig 2000 ⟨5, 1000, Phase.OPEN⟩ rfl).2.1,
    (c10_open_outcome_stability defaultCircuitBreakerConfig 2000 ⟨5, 1000, Phase.OPEN⟩ rfl).2.2.1
      (by decide)⟩,
   (c10_open_outcome_stability defaultCircuitBreakerConfig 61000 ⟨5, 1000, Phase.OPEN⟩ rfl).2.2.2
      (by decide)⟩

/-- C3. A token that would verify under the configured secret but whose exp
claim is in the past makes jwt.verify throw TokenExpiredError; because
TokenExpiredError extends JsonWebTokenError and the catch block tests
instanceof JsonWebTokenError first, jwtAuth responds 401 with message
Invalid token — not the Token expired message the claim requires (that
branch of the catch block is unreachable). -/
theorem c3_expired_token_response :
    jwtVerify ("secret-1") 1000 expiredToken = VerifyResult.threw JwtError.TokenExpiredError
  ∧ jwtAuth c3Verify (some ("Bearer expired-token"))
      = AuthOutcome.respond 401 ⟨"Unauthorized", "Invalid token"⟩
  ∧ AuthOutcome.respond 401 (⟨"Unauthorized", "Invalid token"⟩ : ErrorBody)
      ≠ AuthOutcome.respond 401 ⟨"Unauthorized", "Token expired"⟩ := by
  decide

/-- C4. On an optional-auth route, a present Authorization header whose token
fails validation does not pass through silently: jwtAuth sends the 401
itself and never throws, so the catch in optionalAuth never fires and the
pipeline is answered with 401 Invalid token instead of proceeding without
identity; only the missing-header case passes through cleanly. -/
theorem c4_optional_auth_rejects :
    optionalAuth c4Verify (some ("Bearer garbage"))
      = AuthOutcome.respond 401 ⟨"Unauthorized", "Invalid token"⟩
  ∧ optionalAuth c4Verify none = AuthOutcome.proceed none := by
  decide

/-- C2. A request to the mandatory-auth identities route with no
Authorization header is rejected with 401 before any downstream call, and
no circuit-breaker outcome is recorded for the target service: the circuit
is exactly the same after the rejection as before, whatever its state.
Express strips the /v1 mount prefix before circuitBreaker runs, so its
path regex never matches an ordinary service path and neither the gate nor
the response outcome hook engages. -/
theorem c2_auth_reject_leaves_circuit_unchanged (cfg : CircuitBreakerConfig)
    (verify : String → VerifyResult) (nowMs proxyNowMs responseMs : Int)
    (randomSuffix proxySuffix : String) (downstreamStatus : Nat)
    (hs : List (String × String)) (c : CircuitState)
    (hAuth : lookupHeader hs ("authorization") = none) :
    gatewayProcess cfg verify false nowMs randomSuffix proxyNowMs proxySuffix responseMs
        downstreamStatus ⟨"/v1/identities/doc", hs⟩ c
      = { status := 401, body := some ⟨"Unauthorized", "Authorization header is required"⟩,
          resHeaders := [(("X-Request-ID" : String), resolveRequestId hs nowMs randomSuffix)],
          forwarded := none, circuit := c } := by
  have hmount : v1MountPath ("/v1/identities/doc") = some ("/identities/doc") := rfl
  have hstrip : getServiceFromPath ("/identities/doc") = none := rfl
  have hsvc : getServiceFromPath ("/v1/identities/doc") = some ("identities") := rfl
  have hmem : ("identities" : String) ∈ serviceRoutes := by decide
  have hmw : authMiddlewareFor ("identities") = jwtAuth := rfl
  simp [gatewayProcess, hmount, hstrip, routeStage, hsvc, hmem, hmw, hAuth, jwtAuth]

/-- C2, witness at a CLOSED circuit with counter 3: the 401 rejection leaves
the circuit's fields exactly as they were. -/
theorem c2_auth_reject_leaves_circuit_unchanged_witness :
    gatewayProcess defaultCircuitBreakerConfig nullVerify false 2000 ("r1") 2000 ("r2") 2000 200
        ⟨"/v1/identities/doc", []⟩ ⟨3, 5, Phase.CLOSED⟩
      = { status := 401, body := some ⟨"Unauthorized", "Authorization header is required"⟩,
          resHeaders := [(("X-Request-ID" : String), resolveRequestId [] 2000 ("r1"))],
          forwarded := none, circuit := ⟨3, 5, Phase.CLOSED⟩ } :=
  c2_auth_reject_leaves_circuit_unchanged defaultCircuitBreakerConfig nullVerify 2000 2000 2000
    ("r1") ("r2") 200 [] ⟨3, 5, Phase.CLOSED⟩ rfl

/-- The routing stage either forwards nothing, or forwards a request whose
X-Request-ID header is the id stored on the request headers. -/
theorem routeStage_forwarded_id (verify : String → VerifyResult) (proxyNowMs : Int)
    (proxySuffix : String) (downstreamStatus : Nat) (req : GatewayRequest) (rid : String)
    (hrid : rid ≠ "") :
    (routeStage verify proxyNowMs proxySuffix downstreamStatus req
        (setHeader req.headers ("x-request-id") rid)).forwarded = none
  ∨ ∃ hs2, (routeStage verify proxyNowMs proxySuffix downstreamStatus req
        (setHeader req.headers ("x-request-id") rid)).forwarded = some hs2
      ∧ lookupHeader hs2 ("X-Request-ID") = some rid := by
  cases hsvc : getServiceFromPath req.path with
  | none => simp [routeStage, hsvc]
  | some svc =>
    by_cases hmem : svc ∈ serviceRoutes
    · cases hauth : authMiddlewareFor svc verify (lookupHeader req.headers ("authorization")) with
      | respond s b => simp [routeStage, hsvc, hmem, hauth]
      | proceed user =>
          right
          exact ⟨proxyRequestHeaders (setHeader req.headers ("x-request-id") rid)
              proxyNowMs proxySuffix user,
            by simp [routeStage, hsvc, hmem, hauth],
            proxyRequestHeaders_requestId req.headers rid proxyNowMs proxySuffix user hrid⟩
    · simp [routeStage, hsvc, hmem]

/-- In every branch of the non-rate-limited pipeline, the response carries the
X-Request-ID header with the id chosen by requestValidator, and any
forwarded downstream request carries that same id. -/
theorem gatewayProcess_tracing (cfg : CircuitBreakerConfig) (verify : String → VerifyResult)
    (nowMs proxyNowMs responseMs : Int) (randomSuffix proxySuffix : String)
    (downstreamStatus : Nat) (req : GatewayRequest) (c : CircuitState) :
    (gatewayProcess cfg verify false nowMs randomSuffix proxyNowMs proxySuffix responseMs
        downstreamStatus req c).resHeaders
      = [(("X-Request-ID" : String), resolveRequestId req.headers nowMs randomSuffix)]
  ∧ (forwardedRequestId (gatewayProcess cfg verify false nowMs randomSuffix proxyNowMs
        proxySuffix responseMs downstreamStatus req c) = none
     ∨ forwardedRequestId (gatewayProcess cfg verify false nowMs randomSuffix proxyNowMs
        proxySuffix responseMs downstreamStatus req c)
        = some (resolveRequestId req.headers nowMs randomSuffix)) := by
  have hfwd := routeStage_forwarded_id verify proxyNowMs proxySuffix downstreamStatus req
    (resolveRequestId req.headers nowMs randomSuffix)
    (resolveRequestId_ne_empty req.headers nowMs randomSuffix)
  cases hmount : v1MountPath req.path with
  | none =>
      refine ⟨by simp [gatewayProcess, hmount], ?_⟩
      rcases hfwd with h | ⟨hs2, h, hid⟩
      · exact Or.inl (by simp [gatewayProcess, hmount, forwardedRequestId, h])
      · exact Or.inr (by simp [gatewayProcess, hmount, forwardedRequestId, h, hid])
  | some strippedPath =>
    cases hstrip : getServiceFromPath strippedPath with
    | none =>
        refine ⟨by simp [gatewayProcess, hmount, hstrip], ?_⟩
        rcases hfwd with h | ⟨hs2, h, hid⟩
        · exact Or.inl (by simp [gatewayProcess, hmount, hstrip, forwardedRequestId, h])
        · exact Or.inr (by simp [gatewayProcess, hmount, hstrip, forwardedRequestId, h, hid])
    | some svc =>
      cases hadm : admissionCheck cfg nowMs c with
      | Rejected s e m =>
          exact ⟨by simp [gatewayProcess, hmount, hstrip, hadm],
            Or.inl (by simp [gatewayProcess, hmount, hstrip, hadm, forwardedRequestId])⟩
      | Allowed c1 =>
          refine ⟨by simp [gatewayProcess, hmount, hstrip, hadm], ?_⟩
          rcases hfwd with h | ⟨hs2, h, hid⟩
          · exact Or.inl (by simp [gatewayProcess, hmount, hstrip, hadm, forwardedRequestId, h])
          · exact Or.inr (by simp [gatewayProcess, hmount, hstrip, hadm, forwardedRequestId, h, hid])

/-- C9, counterexample. The global rate limiter is installed before
requestValidator in the middleware stack, so a rate-limited request is
rejected with 429 before any request id is assigned: its response carries
no X-Request-ID header and nothing is forwarded, whereas the claim says
every request, admitted or rejected at any stage, gets an id that is
echoed on the response. -/
theorem c9_rate_limited_no_request_id_counterexample :
    (gatewayProcess defaultCircuitBreakerConfig nullVerify true 1000 ("r1") 1000 ("r2") 1000 200
        ⟨"/v1/identities/doc", []⟩ initialCircuit).status = 429
  ∧ lookupHeader (gatewayProcess defaultCircuitBreakerConfig nullVerify true 1000 ("r1") 1000
        ("r2") 1000 200 ⟨"/v1/identities/doc", []⟩ initialCircuit).resHeaders
        ("X-Request-ID") = none
  ∧ forwardedRequestId (gatewayProcess defaultCircuitBreakerConfig nullVerify true 1000 ("r1")
        1000 ("r2") 1000 200 ⟨"/v1/identities/doc", []⟩ initialCircuit) = none := by
  decide

/-- C9, amended. Every request that passes the rate limiter is assigned a
request id — the inbound x-request-id header value when present and
non-empty, otherwise a fresh one of the form req underscore unixMillis
underscore randomSuffix — which is set on the response's X-Request-ID
header and, whenever a downstream request is forwarded, injected as its
X-Request-ID header; requests rejected by the rate limiter itself get no
id. -/
theorem c9_request_id_echoed_and_forwarded (cfg : CircuitBreakerConfig)
    (verify : String → VerifyResult) (nowMs proxyNowMs responseMs : Int)
    (randomSuffix proxySuffix : String) (downstreamStatus : Nat)
    (req : GatewayRequest) (c : CircuitState) (idv : String) :
    lookupHeader (gatewayProcess cfg verify false nowMs randomSuffix proxyNowMs proxySuffix
        responseMs downstreamStatus req c).resHeaders ("X-Request-ID")
      = some (resolveRequestId req.headers nowMs randomSuffix)
  ∧ (forwardedRequestId (gatewayProcess cfg verify false nowMs randomSuffix proxyNowMs
        proxySuffix responseMs downstreamStatus req c) = none
     ∨ forwardedRequestId (gatewayProcess cfg verify false nowMs randomSuffix proxyNowMs
        proxySuffix responseMs downstreamStatus req c)
        = some (resolveRequestId req.headers nowMs randomSuffix))
  ∧ (lookupHeader req.headers ("x-request-id") = none →
      resolveRequestId req.headers nowMs randomSuffix = genRequestId nowMs randomSuffix)
  ∧ (lookupHeader req.headers ("x-request-id") = some idv → idv ≠ "" →
      resolveRequestId req.headers nowMs randomSuffix = idv) := by
  obtain ⟨h1, h2⟩ := gatewayProcess_tracing cfg verify nowMs proxyNowMs responseMs
    randomSuffix proxySuffix downstreamStatus req c
  refine ⟨?_, h2, ?_, ?_⟩
  · rw [h1]
    exact lookupHeader_single _ _
  · intro h
    simp [resolveRequestId, h]
  · intro h h0
    simp [resolveRequestId, h, h0]

/-- C9, witness for the amended theorem: an authenticated request to the
identities service that is forwarded downstream. -/
theorem c9_request_id_echoed_and_forwarded_witness :
    lookupHeader (gatewayProcess defaultCircuitBreakerConfig okVerify false 1000 ("r1") 5000
        ("r2") 6000 200 ⟨"/v1/identities/doc", [(("authorization" : String), "Bearer tok")]⟩
        initialCircuit).resHeaders ("X-Request-ID")
      = some (resolveRequestId [(("authorization" : String), "Bearer tok")] 1000 ("r1"))
  ∧ (forwardedRequestId (gatewayProcess defaultCircuitBreakerConfig okVerify false 1000 ("r1")
        5000 ("r2") 6000 200 ⟨"/v1/identities/doc", [(("authorization" : String), "Bearer tok")]⟩
        initialCircuit) = none
     ∨ forwardedRequestId (gatewayProcess defaultCircuitBreakerConfig okVerify false 1000 ("r1")
        5000 ("r2") 6000 200 ⟨"/v1/identities/doc", [(("authorization" : String), "Bearer tok")]⟩
        initialCircuit)
        = some (resolveRequestId [(("authorization" : String), "Bearer tok")] 1000 ("r1")))
  ∧ (lookupHeader [(("authorization" : String), "Bearer tok")] ("x-request-id") = none →
      resolveRequestId [(("authorization" : String), "Bearer tok")] 1000 ("r1")
        = genRequestId 1000 ("r1"))
  ∧ (lookupHeader [(("authorization" : String), "Bearer tok")] ("x-request-id")
        = some ("given-id") → ("given-id" : String) ≠ "" →
      resolveRequestId [(("authorization" : String), "Bearer tok")] 1000 ("r1") = "given-id") :=
  c9_request_id_echoed_and_forwarded defaultCircuitBreakerConfig okVerify 1000 5000 6000
    ("r1") ("r2") 200 ⟨"/v1/identities/doc", [(("authorization" : String), "Bearer tok")]⟩
    initialCircuit ("given-id")

end Gateway
